import Mathlib

/-!
Verification of the HTLC (Hashed Time-Lock Contract) simulator in
`htlc_implementation.py`.

The embedding models `HTLCSimulator` and its two validation methods.
Cryptographic primitives (`hashlib.sha256`, `ripemd160`) are kept abstract
as a bundle of byte-level digest functions, since their claims only concern
the equality structure of commitments (everything downstream of the digests
compares digests for equality; the `hexdigest` rendering of a digest is an
injective, deterministic encoding, so comparing raw digest byte lists models
the source's comparison of hex strings faithfully).

The validators in the source print their sub-check results and return a bare
boolean.  The embedding makes the print effect explicit: each method returns
the post-state of the simulator (no field is ever assigned after
construction, so it equals the pre-state), the boolean the Python function
returns, and the ordered list of data-carrying report lines it prints.
-/

namespace HTLC

/-- Models Python `str.encode()`: the byte sequence of a string.  We use the
code points of the characters; like UTF-8 this is a deterministic injective
encoding of strings into lists of naturals, which is the only property the
downstream code depends on. -/
def encode (s : String) : List Nat := s.data.map Char.toNat

/-- The cryptographic collaborators of the module: `hashlib.sha256(·).digest()`
and `hashlib.new('ripemd160')` digests, abstract byte-level functions. -/
structure HashFns where
  sha256 : List Nat → List Nat
  ripemd160 : List Nat → List Nat

/-- `HTLCSimulator.hash160(data)`: `ripemd160(sha256(data.encode()).digest())`. -/
def hash160 (H : HashFns) (data : String) : List Nat :=
  H.ripemd160 (H.sha256 (encode data))

/-- The state built by `HTLCSimulator.__init__`. -/
structure HTLCSimulator where
  secret : String
  secret_hash : List Nat
  alice_pubkey : String
  bob_pubkey : String
  alice_pubkey_hash : List Nat
  bob_pubkey_hash : List Nat
  current_block : Int
deriving DecidableEq

/-- `HTLCSimulator.__init__(secret, alice_pubkey, bob_pubkey)`.  The source
performs no input validation: every argument is accepted, the commitments are
computed and stored, and `current_block` is set to `0`. -/
def HTLCSimulator.init (H : HashFns) (secret alice_pubkey bob_pubkey : String) :
    HTLCSimulator where
  secret := secret
  secret_hash := H.sha256 (encode secret)
  alice_pubkey := alice_pubkey
  bob_pubkey := bob_pubkey
  alice_pubkey_hash := hash160 H alice_pubkey
  bob_pubkey_hash := hash160 H bob_pubkey
  current_block := 0

/-- One data-carrying line printed by a validator.  Constant banner/header
lines carry their title; each diagnostic line carries exactly the values the
source interpolates into it. -/
inductive ReportEntry where
  | header (title : String)
  | secretHashMatch (valid : Bool) (expected provided : List Nat)
  | publicKeyMatch (valid : Bool)
  | publicKeyHashMatch (valid : Bool)
  | blockHeightNote (height : Int)
  | timeoutCheck (passed : Bool) (current timeout : Int)
  | finalResult (success : Bool)
deriving DecidableEq

/-- What one call of a validator does: the simulator state after the call,
the boolean the Python function returns, and the printed report lines. -/
structure ValidationResult where
  sim : HTLCSimulator
  success : Bool
  reports : List ReportEntry
deriving DecidableEq

/-- `HTLCSimulator.validate_alice_claim(provided_secret, provided_pubkey,
block_height)`.  Computes the secret-hash match, the raw pubkey match and the
pubkey-hash match, prints all of them plus the block height, and returns
`secret_valid and pubkey_hash_valid`.  No field of `self` is assigned. -/
def validate_alice_claim (H : HashFns) (sim : HTLCSimulator)
    (provided_secret provided_pubkey : String) (block_height : Int) :
    ValidationResult :=
  let provided_hash := H.sha256 (encode provided_secret)
  let secret_valid := provided_hash == sim.secret_hash
  let pubkey_valid := provided_pubkey == sim.alice_pubkey
  let pubkey_hash_valid := hash160 H provided_pubkey == sim.alice_pubkey_hash
  let success := secret_valid && pubkey_hash_valid
  { sim := sim
    success := success
    reports :=
      [ .header "VALIDATING ALICE'S CLAIM",
        .secretHashMatch secret_valid sim.secret_hash provided_hash,
        .publicKeyMatch pubkey_valid,
        .publicKeyHashMatch pubkey_hash_valid,
        .blockHeightNote block_height,
        .finalResult success ] }

/-- `HTLCSimulator.validate_bob_refund(provided_pubkey, block_height,
timeout_blocks)`.  Computes the timeout check `block_height >= timeout_blocks`,
the raw pubkey match and the pubkey-hash match, prints them, and returns
`timeout_passed and pubkey_hash_valid`.  No field of `self` is assigned. -/
def validate_bob_refund (H : HashFns) (sim : HTLCSimulator)
    (provided_pubkey : String) (block_height timeout_blocks : Int) :
    ValidationResult :=
  let timeout_passed := decide (block_height ≥ timeout_blocks)
  let pubkey_valid := provided_pubkey == sim.bob_pubkey
  let pubkey_hash_valid := hash160 H provided_pubkey == sim.bob_pubkey_hash
  let success := timeout_passed && pubkey_hash_valid
  { sim := sim
    success := success
    reports :=
      [ .header "VALIDATING BOB'S REFUND",
        .timeoutCheck timeout_passed block_height timeout_blocks,
        .publicKeyMatch pubkey_valid,
        .publicKeyHashMatch pubkey_hash_valid,
        .finalResult success ] }

/-- The spec's error taxonomy for construction. -/
inductive HTLCError where
  | invalidInput
deriving DecidableEq

/-- Modelled from the spec: `ContractSpec::create` as §4.1/§7 describe it —
it takes a timeout height and raises `InvalidInput` on an empty secret, an
empty identity, or a negative timeout.  The source constructor
(`HTLCSimulator.init` above) has no such validation and no timeout
parameter; this definition follows the spec's words, for comparison. -/
def create_specModel (H : HashFns) (secret claimant_identity refund_identity : String)
    (timeout_height : Int) : Except HTLCError HTLCSimulator :=
  if secret = "" ∨ claimant_identity = "" ∨ refund_identity = "" ∨ timeout_height < 0 then
    .error .invalidInput
  else
    .ok (HTLCSimulator.init H secret claimant_identity refund_identity)

/-- Concrete hash bundle for witnesses: the identity function on byte lists
(injective, so it is a collision-free instance). -/
def idHash : HashFns where
  sha256 := id
  ripemd160 := id

/-- Concrete hash bundle with everywhere-colliding digests, used to witness
hyperproperties that quantify over colliding inputs. -/
def constHash : HashFns where
  sha256 := fun _ => []
  ripemd160 := fun _ => []

/-- The simulator of the source's test suite setup. -/
def sim0 : HTLCSimulator :=
  HTLCSimulator.init idHash "super_secret_preimage_12345" "alice_public_key_xyz"
    "bob_public_key_abc"

theorem encode_injective : Function.Injective encode := by
  intro x y hxy
  have hchar : Function.Injective Char.toNat := by
    intro c d hcd
    exact Char.eq_of_val_eq (UInt32.eq_of_toBitVec_eq (BitVec.eq_of_toNat_eq hcd))
  have : x.data = y.data := List.map_injective_iff.mpr hchar hxy
  exact String.ext this

theorem hash160_injective (H : HashFns) (hs : Function.Injective H.sha256)
    (hr : Function.Injective H.ripemd160) : Function.Injective (hash160 H) := by
  intro x y hxy
  exact encode_injective (hs (hr hxy))

/-- Claim C1: for every spec, `validate_alice_claim` authorizes iff the
candidate secret equals the construction-time secret and the candidate
identity equals the construction-time claimant identity (stated modulo hash
collisions: under injectivity of the digest functions), and the returned
boolean is the same for every block-height argument. -/
theorem claim_authorized_iff (H : HashFns) (hs : Function.Injective H.sha256)
    (hr : Function.Injective H.ripemd160) (s a b cs cp : String) (h h' : Int) :
    ((validate_alice_claim H (HTLCSimulator.init H s a b) cs cp h).success = true ↔
      (cs = s ∧ cp = a))
    ∧ (validate_alice_claim H (HTLCSimulator.init H s a b) cs cp h).success =
      (validate_alice_claim H (HTLCSimulator.init H s a b) cs cp h').success := by
  refine ⟨?_, rfl⟩
  simp only [validate_alice_claim, HTLCSimulator.init, Bool.and_eq_true, beq_iff_eq]
  constructor
  · rintro ⟨h1, h2⟩
    exact ⟨encode_injective (hs h1), hash160_injective H hs hr h2⟩
  · rintro ⟨rfl, rfl⟩
    exact ⟨rfl, rfl⟩

/-- Witness for C1 at a concrete collision-free hash bundle and concrete
strings: the correct secret and identity authorize, and the outcome at
height 0 equals the outcome at height 5. -/
theorem claim_authorized_iff_witness :
    ((validate_alice_claim idHash (HTLCSimulator.init idHash "s" "a" "b") "s" "a" 0).success
        = true ↔ ("s" = "s" ∧ "a" = "a"))
    ∧ (validate_alice_claim idHash (HTLCSimulator.init idHash "s" "a" "b") "s" "a" 0).success =
      (validate_alice_claim idHash (HTLCSimulator.init idHash "s" "a" "b") "s" "a" 5).success :=
  claim_authorized_iff idHash (fun _ _ hxy => hxy) (fun _ _ hxy => hxy) "s" "a" "b" "s" "a" 0 5

/-- Claim C2: with the correct refund identity, the refund is rejected at
height `T - 1`, authorized at exactly `T` (inclusive boundary), and
authorized at `T + k` for every `k ≥ 0`. -/
theorem refund_timeout_boundary (H : HashFns) (s a b : String) (T : Int) (k : Nat) :
    (validate_bob_refund H (HTLCSimulator.init H s a b) b (T - 1) T).success = false
    ∧ (validate_bob_refund H (HTLCSimulator.init H s a b) b T T).success = true
    ∧ (validate_bob_refund H (HTLCSimulator.init H s a b) b (T + k) T).success = true := by
  have h1 : ¬(T - 1 ≥ T) := by omega
  have h3 : T + (k : Int) ≥ T := by omega
  refine ⟨?_, ?_, ?_⟩ <;> simp [validate_bob_refund, HTLCSimulator.init, h1, h3]

/-- Claim C3 counterexample: construction with an empty secret does not
raise — it silently succeeds, storing the empty secret and its commitment;
the spec-modelled `create` rejects the same input with `InvalidInput`. -/
theorem init_accepts_empty_secret :
    (HTLCSimulator.init idHash "" "alice_public_key_xyz" "bob_public_key_abc").secret = ""
    ∧ (HTLCSimulator.init idHash "" "alice_public_key_xyz" "bob_public_key_abc").secret_hash
        = idHash.sha256 (encode "")
    ∧ create_specModel idHash "" "alice_public_key_xyz" "bob_public_key_abc" 21
        = Except.error HTLCError.invalidInput :=
  ⟨rfl, rfl, rfl⟩

/-- Claim C3 (amended): construction performs no input validation at all —
for every input, including empty strings, it succeeds and returns the record
of stored commitments with `current_block = 0`; no `InvalidInput` error
exists and no timeout parameter is taken at construction. -/
theorem init_accepts_all_inputs (H : HashFns) (s a b : String) :
    HTLCSimulator.init H s a b =
      { secret := s
        secret_hash := H.sha256 (encode s)
        alice_pubkey := a
        bob_pubkey := b
        alice_pubkey_hash := hash160 H a
        bob_pubkey_hash := hash160 H b
        current_block := 0 } := rfl

/-- Claim C4 counterexample: two claim attempts whose individual sub-check
outcomes differ (wrong secret with right identity, versus right secret with
wrong identity — their printed reports differ) return the identical bare
boolean, so the value the source function returns carries no sequence of
individual sub-check results. -/
theorem return_value_loses_subchecks :
    (validate_alice_claim idHash sim0 "wrong_secret" "alice_public_key_xyz" 10).success =
      (validate_alice_claim idHash sim0 "super_secret_preimage_12345" "no_such_key" 10).success
    ∧ (validate_alice_claim idHash sim0 "wrong_secret" "alice_public_key_xyz" 10).reports ≠
      (validate_alice_claim idHash sim0 "super_secret_preimage_12345" "no_such_key" 10).reports :=
  ⟨by decide, by decide⟩

/-- Claim C4 (amended): each evaluation reports every sub-check individually
and in order in its printed diagnostics — both sub-check results are present
regardless of whether the first one failed — but they are part of the printed
trace, not of the returned value, which is only the final boolean. -/
theorem subchecks_reported_in_trace (H : HashFns) (sim : HTLCSimulator)
    (cs cp : String) (h T : Int) :
    (validate_alice_claim H sim cs cp h).reports[1]? =
      some (.secretHashMatch (H.sha256 (encode cs) == sim.secret_hash) sim.secret_hash
        (H.sha256 (encode cs)))
    ∧ (validate_alice_claim H sim cs cp h).reports[3]? =
      some (.publicKeyHashMatch (hash160 H cp == sim.alice_pubkey_hash))
    ∧ (validate_alice_claim H sim cs cp h).success =
      ((H.sha256 (encode cs) == sim.secret_hash) && (hash160 H cp == sim.alice_pubkey_hash))
    ∧ (validate_bob_refund H sim cp h T).reports[1]? =
      some (.timeoutCheck (decide (h ≥ T)) h T)
    ∧ (validate_bob_refund H sim cp h T).reports[3]? =
      some (.publicKeyHashMatch (hash160 H cp == sim.bob_pubkey_hash))
    ∧ (validate_bob_refund H sim cp h T).success =
      (decide (h ≥ T) && (hash160 H cp == sim.bob_pubkey_hash)) :=
  ⟨rfl, rfl, rfl, rfl, rfl, rfl⟩

/-- Claim C5: at any height at or after the timeout, the claim path with the
correct secret and claimant identity and the refund path with the correct
refund identity are both authorized — the two paths are independent. -/
theorem both_paths_authorized_after_timeout (H : HashFns) (s a b : String)
    (T h : Int) (hT : T ≤ h) :
    (validate_alice_claim H (HTLCSimulator.init H s a b) s a h).success = true
    ∧ (validate_bob_refund H (HTLCSimulator.init H s a b) b h T).success = true := by
  constructor
  · simp [validate_alice_claim, HTLCSimulator.init]
  · simp [validate_bob_refund, HTLCSimulator.init, hT]

/-- Witness for C5 at timeout 21 and height 25. -/
theorem both_paths_authorized_after_timeout_witness :
    (validate_alice_claim idHash (HTLCSimulator.init idHash "s" "a" "b") "s" "a" 25).success
        = true
    ∧ (validate_bob_refund idHash (HTLCSimulator.init idHash "s" "a" "b") "b" 25 21).success
        = true :=
  both_paths_authorized_after_timeout idHash "s" "a" "b" 21 25 (by decide)

/-- Claim C6: when the two identity commitments differ, presenting the
refund identity on the claim path fails even with the correct secret, and
presenting the claimant identity on the refund path fails at every height
and timeout. -/
theorem identity_isolation (H : HashFns) (s a b : String)
    (hne : hash160 H a ≠ hash160 H b) (hc hr T : Int) :
    (validate_alice_claim H (HTLCSimulator.init H s a b) s b hc).success = false
    ∧ (validate_bob_refund H (HTLCSimulator.init H s a b) a hr T).success = false := by
  have h1 : (hash160 H b == hash160 H a) = false := by
    simp only [beq_eq_false_iff_ne, ne_eq]
    exact fun e => hne e.symm
  have h2 : (hash160 H a == hash160 H b) = false := by
    simp only [beq_eq_false_iff_ne, ne_eq]
    exact hne
  constructor
  · simp [validate_alice_claim, HTLCSimulator.init, h1]
  · simp [validate_bob_refund, HTLCSimulator.init, h2]

/-- Witness for C6: with the injective hash bundle the commitments of "a"
and "b" differ; the cross-identity claim at height 10 and the cross-identity
refund at height 25 with timeout 21 are both rejected. -/
theorem identity_isolation_witness :
    (validate_alice_claim idHash (HTLCSimulator.init idHash "s" "a" "b") "s" "b" 10).success
        = false
    ∧ (validate_bob_refund idHash (HTLCSimulator.init idHash "s" "a" "b") "a" 25 21).success
        = false :=
  identity_isolation idHash "s" "a" "b" (by decide) 10 25 21

/-- Claim C7: the refund path never reads the secret or its commitment —
two specs differing only in the construction-time secret yield the same
returned boolean and the same printed reports for every candidate identity,
height and timeout. -/
theorem refund_ignores_secret (H : HashFns) (s1 s2 a b cp : String) (h T : Int) :
    (validate_bob_refund H (HTLCSimulator.init H s1 a b) cp h T).success =
      (validate_bob_refund H (HTLCSimulator.init H s2 a b) cp h T).success
    ∧ (validate_bob_refund H (HTLCSimulator.init H s1 a b) cp h T).reports =
      (validate_bob_refund H (HTLCSimulator.init H s2 a b) cp h T).reports :=
  ⟨rfl, rfl⟩

/-- Claim C8: the stored secret commitment is exactly `SHA256(encode s)` and
each stored identity commitment is exactly the two-stage
`RIPEMD160(SHA256(encode x))`; both digests are deterministic functions, so
equal inputs yield equal commitments. -/
theorem commitment_structure (H : HashFns) (s a b x y : String) (hxy : x = y) :
    (HTLCSimulator.init H s a b).secret_hash = H.sha256 (encode s)
    ∧ (HTLCSimulator.init H s a b).alice_pubkey_hash = H.ripemd160 (H.sha256 (encode a))
    ∧ (HTLCSimulator.init H s a b).bob_pubkey_hash = H.ripemd160 (H.sha256 (encode b))
    ∧ hash160 H x = hash160 H y
    ∧ H.sha256 (encode x) = H.sha256 (encode y) := by
  subst hxy
  exact ⟨rfl, rfl, rfl, rfl, rfl⟩

/-- Witness for C8 at concrete strings, with the determinism conjunct
discharged at equal inputs "x" = "x". -/
theorem commitment_structure_witness :
    (HTLCSimulator.init idHash "s" "a" "b").secret_hash = idHash.sha256 (encode "s")
    ∧ (HTLCSimulator.init idHash "s" "a" "b").alice_pubkey_hash
        = idHash.ripemd160 (idHash.sha256 (encode "a"))
    ∧ (HTLCSimulator.init idHash "s" "a" "b").bob_pubkey_hash
        = idHash.ripemd160 (idHash.sha256 (encode "b"))
    ∧ hash160 idHash "x" = hash160 idHash "x"
    ∧ idHash.sha256 (encode "x") = idHash.sha256 (encode "x") :=
  commitment_structure idHash "s" "a" "b" "x" "x" rfl

/-- Claim C9 counterexample: the evaluator does produce text output — a
concrete call prints a non-empty sequence of report lines, contradicting
"no I/O inside the evaluator" and "never produces text output". -/
theorem evaluator_emits_output :
    (validate_alice_claim idHash sim0 "super_secret_preimage_12345"
        "alice_public_key_xyz" 10).reports ≠ [] := by
  decide

/-- Claim C9 (amended): neither evaluation mutates any field of the
simulator — the post-state equals the pre-state — but both evaluations do
emit printed diagnostic output on every call. -/
theorem evaluators_preserve_state_but_print (H : HashFns) (sim : HTLCSimulator)
    (cs cp : String) (h T : Int) :
    (validate_alice_claim H sim cs cp h).sim = sim
    ∧ (validate_bob_refund H sim cp h T).sim = sim
    ∧ (validate_alice_claim H sim cs cp h).reports ≠ []
    ∧ (validate_bob_refund H sim cp h T).reports ≠ [] := by
  refine ⟨rfl, rfl, ?_, ?_⟩ <;> simp [validate_alice_claim, validate_bob_refund]

/-- Claim C10: the returned outcome of either evaluation depends on the
candidate identity only through its HASH160 digest — candidates with equal
digests produce equal returned booleans — while the raw-equality comparison
against the stored key is computed (it appears in the printed reports) but
has no effect on the returned outcome. -/
theorem identity_read_only_through_hash160 (H : HashFns) (sim : HTLCSimulator)
    (cs cp1 cp2 : String) (h T : Int) (hh : hash160 H cp1 = hash160 H cp2) :
    ((validate_alice_claim H sim cs cp1 h).success =
      (validate_alice_claim H sim cs cp2 h).success
    ∧ (validate_bob_refund H sim cp1 h T).success =
      (validate_bob_refund H sim cp2 h T).success)
    ∧ (ReportEntry.publicKeyMatch (cp1 == sim.alice_pubkey)
        ∈ (validate_alice_claim H sim cs cp1 h).reports
    ∧ ReportEntry.publicKeyMatch (cp1 == sim.bob_pubkey)
        ∈ (validate_bob_refund H sim cp1 h T).reports) := by
  refine ⟨⟨?_, ?_⟩, ?_, ?_⟩ <;>
    simp [validate_alice_claim, validate_bob_refund, hh]

/-- Witness for C10: under the everywhere-colliding hash bundle the distinct
raw keys "x" and "y" have equal digests, and both evaluations return the
same outcome for them. -/
theorem identity_read_only_through_hash160_witness :
    (((validate_alice_claim constHash sim0 "s" "x" 0).success =
      (validate_alice_claim constHash sim0 "s" "y" 0).success)
    ∧ (validate_bob_refund constHash sim0 "x" 0 0).success =
      (validate_bob_refund constHash sim0 "y" 0 0).success)
    ∧ (ReportEntry.publicKeyMatch (("x" : String) == sim0.alice_pubkey)
        ∈ (validate_alice_claim constHash sim0 "s" "x" 0).reports
    ∧ ReportEntry.publicKeyMatch (("x" : String) == sim0.bob_pubkey)
        ∈ (validate_bob_refund constHash sim0 "x" 0 0).reports) :=
  identity_read_only_through_hash160 constHash sim0 "s" "x" "y" 0 0 rfl

end HTLC
